import Mathlib

/-!
Shallow embedding of `src/simple_document_extractor.py` (the format-dispatch
extraction pipeline) and proofs about it.

Modelling conventions:
* A Python computation that may raise is modelled by `PyOutcome`: either a
  returned value or a raised exception carrying `str(e)`.
* Each external parsing-library call (PyPDF2, python-docx, mammoth, pandas,
  python-pptx, BeautifulSoup) is modelled as an oracle carried in `FileEnv`:
  an `Except String data` value, `.error msg` meaning the library raised an
  exception whose message is `msg`, `.ok data` meaning it parsed the file's
  bytes into the structured data the handler then walks.  The handlers' own
  logic (string assembly, try/except) is translated from the source.
* The `.txt` handler's `open(..., encoding='utf-8', errors='replace').read()`
  is modelled by a total lenient UTF-8 decoder over the raw bytes.
* `process_file` returns a Python dict with a `"text"` or an `"error"` key,
  modelled by `PyDict` with two optional fields.
-/

namespace DocExtractor

/-- Result of running a Python block: a returned value, or a raised
exception carrying its message. -/
inductive PyOutcome (α : Type) where
  | ok (a : α)
  | raised (msg : String)
deriving DecidableEq

/-- Did the block raise (propagate an exception) rather than return? -/
def PyOutcome.isRaised {α : Type} : PyOutcome α → Bool
  | .ok _ => false
  | .raised _ => true

/-- The dict returned by `process_file`: it carries a `"text"` key, or an
`"error"` key (`{"text": text}` resp. `{"error": ...}` in the source). -/
structure PyDict where
  text : Option String
  error : Option String
deriving DecidableEq

/-- `try: body except Exception as e: return handler(str(e))` — a raised
exception is converted into a normal return value by the handler. -/
def pyTryExcept {α : Type} (body : PyOutcome α) (handler : String → α) :
    PyOutcome α :=
  match body with
  | .ok a => .ok a
  | .raised e => .ok (handler e)

/-- One uploaded file, as the handlers see it: its raw bytes, and the
outcome of each parsing library on those bytes (error message when the
library raises, structured data when it succeeds).

* `pdfParse`: PyPDF2 — the list of `page.extract_text()` results, in page
  order (lines 39-42 of the source).
* `docxParse`: python-docx — the list of `paragraph.text` values (line 52).
* `docParse`: mammoth — `result.value` (lines 62-63).
* `csvParse`: pandas — `df.to_string()` (lines 80-81).
* `excelParse`: pandas with `sheet_name=None` — the (sheet name,
  `sheet_df.to_string()`) pairs in stored workbook order (lines 89-93).
* `pptxParse`: python-pptx — per slide, per shape, `some t` when the shape
  has a `text` attribute with value `t`, else `none` (lines 102-109).
* `htmlParse`: BeautifulSoup — `soup.get_text()` on the decoded file
  (lines 119-121). -/
structure FileEnv where
  bytes : List Nat
  pdfParse : Except String (List String)
  docxParse : Except String (List String)
  docParse : Except String String
  csvParse : Except String String
  excelParse : Except String (List (String × String))
  pptxParse : Except String (List (List (Option String)))
  htmlParse : Except String String

/-- U+FFFD, the replacement character that `errors='replace'` substitutes. -/
def replChar : Char := Char.ofNat 0xFFFD

/-- Is `b` a UTF-8 continuation byte (0x80-0xBF)? -/
def isCont (b : Nat) : Bool := 0x80 ≤ b && b ≤ 0xBF

/-- Lower bound of the admissible first continuation byte after lead `b`
(0xA0 after 0xE0, 0x90 after 0xF0 — excluding overlong encodings). -/
def cont1Lo (b : Nat) : Nat :=
  if b = 0xE0 then 0xA0 else if b = 0xF0 then 0x90 else 0x80

/-- Upper bound of the admissible first continuation byte after lead `b`
(0x9F after 0xED excludes surrogates, 0x8F after 0xF4 caps at U+10FFFF). -/
def cont1Hi (b : Nat) : Nat :=
  if b = 0xED then 0x9F else if b = 0xF4 then 0x8F else 0xBF

/-- Lenient UTF-8 decoding as CPython's `errors='replace'` performs it:
each maximal invalid subsequence (an invalid lead byte, or a lead byte with
its admissible-but-incomplete continuation bytes) becomes one U+FFFD, and
decoding resumes at the next unconsumed byte.  Total on every byte list. -/
def utf8DecodeReplace : List Nat → List Char
  | [] => []
  | b :: rest =>
    if b ≤ 0x7F then
      Char.ofNat b :: utf8DecodeReplace rest
    else if 0xC2 ≤ b && b ≤ 0xDF then
      match rest with
      | [] => [replChar]
      | b1 :: rest1 =>
        if isCont b1 then
          Char.ofNat ((b - 0xC0) * 0x40 + (b1 - 0x80)) ::
            utf8DecodeReplace rest1
        else
          replChar :: utf8DecodeReplace (b1 :: rest1)
    else if 0xE0 ≤ b && b ≤ 0xEF then
      match rest with
      | [] => [replChar]
      | b1 :: rest1 =>
        if cont1Lo b ≤ b1 && b1 ≤ cont1Hi b then
          match rest1 with
          | [] => [replChar]
          | b2 :: rest2 =>
            if isCont b2 then
              Char.ofNat ((b - 0xE0) * 0x1000 + (b1 - 0x80) * 0x40 +
                  (b2 - 0x80)) :: utf8DecodeReplace rest2
            else
              replChar :: utf8DecodeReplace (b2 :: rest2)
        else
          replChar :: utf8DecodeReplace (b1 :: rest1)
    else if 0xF0 ≤ b && b ≤ 0xF4 then
      match rest with
      | [] => [replChar]
      | b1 :: rest1 =>
        if cont1Lo b ≤ b1 && b1 ≤ cont1Hi b then
          match rest1 with
          | [] => [replChar]
          | b2 :: rest2 =>
            if isCont b2 then
              match rest2 with
              | [] => [replChar]
              | b3 :: rest3 =>
                if isCont b3 then
                  Char.ofNat ((b - 0xF0) * 0x40000 + (b1 - 0x80) * 0x1000 +
                      (b2 - 0x80) * 0x40 + (b3 - 0x80)) ::
                    utf8DecodeReplace rest3
                else
                  replChar :: utf8DecodeReplace (b3 :: rest3)
            else
              replChar :: utf8DecodeReplace (b2 :: rest2)
        else
          replChar :: utf8DecodeReplace (b1 :: rest1)
    else
      replChar :: utf8DecodeReplace rest

namespace DocumentExtractor

/-- Lines 33-45: open as PDF, `text += page.extract_text() + "\n\n"` per
page; any exception becomes the literal error text. -/
def extract_from_pdf (p : Except String (List String)) : String :=
  match p with
  | .ok pages => pages.foldl (fun text page => text ++ page ++ "\n\n") ""
  | .error e => "Error extracting text from PDF: " ++ e

/-- Lines 47-55: `"\n\n".join(paragraph.text for paragraph in ...)`. -/
def extract_from_docx (p : Except String (List String)) : String :=
  match p with
  | .ok paras => "\n\n".intercalate paras
  | .error e => "Error extracting text from DOCX: " ++ e

/-- Lines 57-65: mammoth raw text, `result.value`. -/
def extract_from_doc (p : Except String String) : String :=
  match p with
  | .ok v => v
  | .error e => "Error extracting text from DOC: " ++ e

/-- Lines 67-74: read the file as UTF-8 with `errors='replace'`.  The
lenient decode is total, so the `except` branch of the source is
unreachable for the decoding step. -/
def extract_from_txt (bytes : List Nat) : String :=
  String.mk (utf8DecodeReplace bytes)

/-- Lines 76-83: `pd.read_csv(...).to_string()`. -/
def extract_from_csv (p : Except String String) : String :=
  match p with
  | .ok s => s
  | .error e => "Error extracting text from CSV: " ++ e

/-- Lines 85-96: for each sheet, `result += f"Sheet: {sheet_name}\n"` then
`result += sheet_df.to_string() + "\n\n"`. -/
def extract_from_excel (p : Except String (List (String × String))) :
    String :=
  match p with
  | .ok sheets =>
    sheets.foldl
      (fun result s =>
        result ++ ("Sheet: " ++ s.1 ++ "\n") ++ (s.2 ++ "\n\n")) ""
  | .error e => "Error extracting text from Excel: " ++ e

/-- Lines 98-113: per slide, `text += shape.text + "\n"` for each shape
with a `text` attribute, then `text += "\n"` after the slide. -/
def extract_from_pptx (p : Except String (List (List (Option String)))) :
    String :=
  match p with
  | .ok slides =>
    slides.foldl
      (fun text slide =>
        (slide.foldl
          (fun t sh =>
            match sh with
            | some shapeText => t ++ shapeText ++ "\n"
            | none => t) text) ++ "\n") ""
  | .error e => "Error extracting text from PowerPoint: " ++ e

/-- Lines 115-123: BeautifulSoup `get_text()` on the decoded file. -/
def extract_from_html (p : Except String String) : String :=
  match p with
  | .ok s => s
  | .error e => "Error extracting text from HTML: " ++ e

/-- The `if/elif` extension ladder of lines 129-148: the value bound to
`text` inside the outer `try`. -/
def dispatch (env : FileEnv) (file_ext : String) : String :=
  if file_ext = ".pdf" then extract_from_pdf env.pdfParse
  else if file_ext = ".docx" then extract_from_docx env.docxParse
  else if file_ext = ".doc" then extract_from_doc env.docParse
  else if file_ext = ".txt" then extract_from_txt env.bytes
  else if file_ext ∈ [".csv"] then extract_from_csv env.csvParse
  else if file_ext ∈ [".xls", ".xlsx"] then extract_from_excel env.excelParse
  else if file_ext = ".pptx" then extract_from_pptx env.pptxParse
  else if file_ext ∈ [".html", ".htm"] then extract_from_html env.htmlParse
  else if file_ext ∈ [".jpg", ".jpeg", ".png", ".bmp", ".gif", ".tiff"] then
    "Image processing is not supported in this version."
  else
    "Unsupported file format: " ++ file_ext

/-- The body of the outer `try` of `process_file` (lines 128-150).
`outerFault = some e` models an exception of message `e` arising in this
outer scope, outside any handler's own try/except (in normal operation the
dispatch is total, so `outerFault = none`). -/
def process_file_try_body (env : FileEnv) (file_ext : String)
    (outerFault : Option String) : PyOutcome PyDict :=
  match outerFault with
  | some e => .raised e
  | none => .ok { text := some (dispatch env file_ext), error := none }

/-- Lines 126-152: the outer try/except of `process_file`; any exception
reaching the outer scope is caught and turned into
`{"error": "Error processing file: ..."}`. -/
def process_file (env : FileEnv) (file_ext : String)
    (outerFault : Option String) : PyOutcome PyDict :=
  pyTryExcept (process_file_try_body env file_ext outerFault)
    (fun e => { text := none, error := some ("Error processing file: " ++ e) })

end DocumentExtractor

/-- ASCII case folding of one character, as Python's `str.lower` acts on
the ASCII range (extensions are ASCII strings). -/
def asciiLowerChar (c : Char) : Char :=
  if 65 ≤ c.toNat ∧ c.toNat ≤ 90 then Char.ofNat (c.toNat + 32) else c

/-- `str.lower` on an extension string (line 173 of the source applies it
to the filename's suffix before dispatch). -/
def pyLower (s : String) : String := String.mk (s.data.map asciiLowerChar)

/-- The extension handling of the `/extract-text/` boundary (lines
172-176): lower-case the declared extension, then dispatch. -/
def extract_text_dispatch (env : FileEnv) (rawExt : String) :
    PyOutcome PyDict :=
  DocumentExtractor.process_file env (pyLower rawExt) none

/-- Concatenation of `f` over a list — the closed form of the string
accumulation loops in the handlers. -/
def concatMap {α : Type} (f : α → String) : List α → String
  | [] => ""
  | x :: xs => f x ++ concatMap f xs

/-- The ten supported non-image extensions (eight format families). -/
def supportedExts : List String :=
  [".pdf", ".docx", ".doc", ".txt", ".csv", ".xls", ".xlsx", ".pptx",
   ".html", ".htm"]

/-- The six image extensions (lines 145-146). -/
def imageExts : List String :=
  [".jpg", ".jpeg", ".png", ".bmp", ".gif", ".tiff"]

/-- A sample uploaded file on which every library call succeeds with
trivially small data; its raw bytes contain the invalid UTF-8 byte 0xFF. -/
def baseEnv : FileEnv where
  bytes := [0x41, 0xFF, 0x42]
  pdfParse := .ok []
  docxParse := .ok []
  docParse := .ok ""
  csvParse := .ok ""
  excelParse := .ok []
  pptxParse := .ok []
  htmlParse := .ok ""

/-- A corrupted file: every parsing library raises with message "boom". -/
def allErrorEnv : FileEnv where
  bytes := []
  pdfParse := .error "boom"
  docxParse := .error "boom"
  docParse := .error "boom"
  csvParse := .error "boom"
  excelParse := .error "boom"
  pptxParse := .error "boom"
  htmlParse := .error "boom"

/-- A well-formed one-page PDF whose page text is "page". -/
def pdfOneEnv : FileEnv := { baseEnv with pdfParse := .ok ["page"] }

/-- A well-formed three-page PDF with page texts "a", "b", "c". -/
def pdfThreeEnv : FileEnv := { baseEnv with pdfParse := .ok ["a", "b", "c"] }

/-- A workbook with sheets "Sheet1" and "Data" (rendered as t1, t2). -/
def sheetsEnv : FileEnv :=
  { baseEnv with excelParse := .ok [("Sheet1", "t1"), ("Data", "t2")] }

open DocumentExtractor

theorem process_file_none (env : FileEnv) (ext : String) :
    process_file env ext none = .ok ⟨some (dispatch env ext), none⟩ := rfl

theorem toNat_ofNat_of_valid (n : Nat) (h : n.isValidChar) :
    (Char.ofNat n).toNat = n := by
  unfold Char.ofNat
  rw [dif_pos h]
  unfold Char.ofNatAux Char.toNat
  simp [UInt32.toNat, UInt32.ofNatCore]

theorem asciiLowerChar_idem (c : Char) :
    asciiLowerChar (asciiLowerChar c) = asciiLowerChar c := by
  unfold asciiLowerChar
  by_cases h : 65 ≤ c.toNat ∧ c.toNat ≤ 90
  · rw [if_pos h]
    have hv : (c.toNat + 32).isValidChar := Or.inl (by omega)
    have ht : (Char.ofNat (c.toNat + 32)).toNat = c.toNat + 32 :=
      toNat_ofNat_of_valid _ hv
    rw [if_neg (by rw [ht]; omega)]
  · rw [if_neg h, if_neg h]

theorem map_asciiLower_idem (l : List Char) :
    (l.map asciiLowerChar).map asciiLowerChar = l.map asciiLowerChar := by
  induction l with
  | nil => rfl
  | cons c cs ih => simp only [List.map_cons, ih, asciiLowerChar_idem]

theorem pyLower_idem (s : String) : pyLower (pyLower s) = pyLower s :=
  congrArg String.mk (map_asciiLower_idem s.data)

theorem foldl_append_concatMap {α : Type} (f : α → String) :
    ∀ (l : List α) (acc : String),
      l.foldl (fun t x => t ++ f x) acc = acc ++ concatMap f l
  | [], acc => (String.append_empty acc).symm
  | x :: xs, acc => by
    rw [List.foldl_cons, foldl_append_concatMap f xs (acc ++ f x),
      concatMap, ← String.append_assoc]

theorem extract_from_pdf_ok (pages : List String) :
    extract_from_pdf (.ok pages) =
      concatMap (fun page => page ++ "\n\n") pages := by
  show pages.foldl (fun text page => text ++ page ++ "\n\n") "" = _
  have hstep : (fun (text page : String) => text ++ page ++ "\n\n") =
      fun text page => text ++ (page ++ "\n\n") := by
    funext t p; rw [String.append_assoc]
  rw [hstep, foldl_append_concatMap]
  rfl

theorem extract_from_excel_ok (sheets : List (String × String)) :
    extract_from_excel (.ok sheets) =
      concatMap (fun s => ("Sheet: " ++ s.1 ++ "\n") ++ (s.2 ++ "\n\n"))
        sheets := by
  show sheets.foldl (fun result s =>
      result ++ ("Sheet: " ++ s.1 ++ "\n") ++ (s.2 ++ "\n\n")) "" = _
  have hstep : (fun (result : String) (s : String × String) =>
      result ++ ("Sheet: " ++ s.1 ++ "\n") ++ (s.2 ++ "\n\n")) =
      fun result s =>
        result ++ (("Sheet: " ++ s.1 ++ "\n") ++ (s.2 ++ "\n\n")) := by
    funext r s; rw [String.append_assoc]
  rw [hstep, foldl_append_concatMap]
  rfl

/-- Claim C1: for every file and every supported extension, an exception
raised by the format-specific parsing is caught inside the handler, and
`process_file` returns a successful text result (not an error variant, not
a raised exception) whose content is
"Error extracting text from <FORMAT>: <underlying message>"; in
particular, for a corrupted PDF the content starts with
"Error extracting text from PDF:". -/
theorem C1_parse_errors_become_text (env : FileEnv) (e : String) :
    (env.pdfParse = .error e →
      (process_file env ".pdf" none =
        .ok ⟨some ("Error extracting text from PDF: " ++ e), none⟩) ∧
      ∃ r, "Error extracting text from PDF: " ++ e =
        "Error extracting text from PDF:" ++ r) ∧
    (env.docxParse = .error e →
      process_file env ".docx" none =
        .ok ⟨some ("Error extracting text from DOCX: " ++ e), none⟩) ∧
    (env.docParse = .error e →
      process_file env ".doc" none =
        .ok ⟨some ("Error extracting text from DOC: " ++ e), none⟩) ∧
    (env.csvParse = .error e →
      process_file env ".csv" none =
        .ok ⟨some ("Error extracting text from CSV: " ++ e), none⟩) ∧
    (env.excelParse = .error e →
      (process_file env ".xls" none =
        .ok ⟨some ("Error extracting text from Excel: " ++ e), none⟩) ∧
      process_file env ".xlsx" none =
        .ok ⟨some ("Error extracting text from Excel: " ++ e), none⟩) ∧
    (env.pptxParse = .error e →
      process_file env ".pptx" none =
        .ok ⟨some ("Error extracting text from PowerPoint: " ++ e), none⟩) ∧
    (env.htmlParse = .error e →
      (process_file env ".html" none =
        .ok ⟨some ("Error extracting text from HTML: " ++ e), none⟩) ∧
      process_file env ".htm" none =
        .ok ⟨some ("Error extracting text from HTML: " ++ e), none⟩) := by
  refine ⟨fun h => ⟨?_, ⟨" " ++ e, ?_⟩⟩, fun h => ?_, fun h => ?_,
    fun h => ?_, fun h => ⟨?_, ?_⟩, fun h => ?_, fun h => ⟨?_, ?_⟩⟩
  · rw [process_file_none,
      show dispatch env ".pdf" = extract_from_pdf env.pdfParse from rfl, h]
    rfl
  · rw [← String.append_assoc]
    rfl
  · rw [process_file_none,
      show dispatch env ".docx" = extract_from_docx env.docxParse from rfl, h]
    rfl
  · rw [process_file_none,
      show dispatch env ".doc" = extract_from_doc env.docParse from rfl, h]
    rfl
  · rw [process_file_none,
      show dispatch env ".csv" = extract_from_csv env.csvParse from rfl, h]
    rfl
  · rw [process_file_none,
      show dispatch env ".xls" = extract_from_excel env.excelParse from rfl,
      h]
    rfl
  · rw [process_file_none,
      show dispatch env ".xlsx" = extract_from_excel env.excelParse from rfl,
      h]
    rfl
  · rw [process_file_none,
      show dispatch env ".pptx" = extract_from_pptx env.pptxParse from rfl, h]
    rfl
  · rw [process_file_none,
      show dispatch env ".html" = extract_from_html env.htmlParse from rfl, h]
    rfl
  · rw [process_file_none,
      show dispatch env ".htm" = extract_from_html env.htmlParse from rfl, h]
    rfl

/-- Witness for claim C1 at the concrete corrupted file `allErrorEnv`,
whose every parsing library raises with message "boom". -/
theorem C1_parse_errors_become_text_witness :
    allErrorEnv.pdfParse = Except.error "boom" ∧
    (process_file allErrorEnv ".pdf" none =
      .ok ⟨some ("Error extracting text from PDF: " ++ "boom"), none⟩) ∧
    (process_file allErrorEnv ".docx" none =
      .ok ⟨some ("Error extracting text from DOCX: " ++ "boom"), none⟩) ∧
    (process_file allErrorEnv ".doc" none =
      .ok ⟨some ("Error extracting text from DOC: " ++ "boom"), none⟩) ∧
    (process_file allErrorEnv ".csv" none =
      .ok ⟨some ("Error extracting text from CSV: " ++ "boom"), none⟩) ∧
    (process_file allErrorEnv ".xls" none =
      .ok ⟨some ("Error extracting text from Excel: " ++ "boom"), none⟩) ∧
    (process_file allErrorEnv ".xlsx" none =
      .ok ⟨some ("Error extracting text from Excel: " ++ "boom"), none⟩) ∧
    (process_file allErrorEnv ".pptx" none =
      .ok ⟨some ("Error extracting text from PowerPoint: " ++ "boom"),
        none⟩) ∧
    (process_file allErrorEnv ".html" none =
      .ok ⟨some ("Error extracting text from HTML: " ++ "boom"), none⟩) ∧
    process_file allErrorEnv ".htm" none =
      .ok ⟨some ("Error extracting text from HTML: " ++ "boom"), none⟩ := by
  have h := C1_parse_errors_become_text allErrorEnv "boom"
  exact ⟨rfl, (h.1 rfl).1, h.2.1 rfl, h.2.2.1 rfl, h.2.2.2.1 rfl,
    (h.2.2.2.2.1 rfl).1, (h.2.2.2.2.1 rfl).2, h.2.2.2.2.2.1 rfl,
    (h.2.2.2.2.2.2 rfl).1, (h.2.2.2.2.2.2 rfl).2⟩

/-- Claim C2 counterexample: when an exception arises in the outer scope of
`process_file` (outside any handler), `process_file` does not raise: it
returns the error-variant dict
`{"error": "Error processing file: <message>"}` produced by its own
`except` clause (lines 151-152), so the claim that it propagates the
failure upward is false at this concrete input. -/
theorem C2_counterexample :
    process_file baseEnv ".pdf" (some "dispatch broke") =
      .ok ⟨none, some ("Error processing file: " ++ "dispatch broke")⟩ ∧
    (process_file baseEnv ".pdf" (some "dispatch broke")).isRaised = false :=
  ⟨rfl, rfl⟩

/-- Claim C2 (amended): if an exception occurs inside `process_file`
outside the per-format handler scope, `process_file` catches it with its
own outer `except` clause and returns the error-variant result
`{"error": "Error processing file: <message>"}` — it does not raise. -/
theorem C2_outer_exception_returns_error_dict (env : FileEnv)
    (ext e : String) :
    process_file env ext (some e) =
      .ok ⟨none, some ("Error processing file: " ++ e)⟩ ∧
    (process_file env ext (some e)).isRaised = false :=
  ⟨rfl, rfl⟩

/-- Claim C3 counterexample: `process_file` compares the extension
case-sensitively, so on the same one-page PDF the extension ".PDF" falls
through to the unsupported-format fallback while ".pdf" reaches the PDF
handler — they do not route to the same handler. -/
theorem C3_counterexample :
    process_file pdfOneEnv ".PDF" none =
      .ok ⟨some ("Unsupported file format: " ++ ".PDF"), none⟩ ∧
    process_file pdfOneEnv ".pdf" none =
      .ok ⟨some ("page" ++ "\n\n"), none⟩ ∧
    process_file pdfOneEnv ".PDF" none ≠ process_file pdfOneEnv ".pdf" none :=
  ⟨rfl, rfl, by decide⟩

/-- Claim C3 (amended): `process_file` itself is case-sensitive (".PDF"
hits the unsupported-format fallback for every file), and the
case-insensitivity holds one layer up: the HTTP boundary lower-cases the
extension before dispatching (line 173), so the boundary routes every
extension exactly as it routes its lower-cased form. -/
theorem C3_boundary_case_insensitive (env : FileEnv) (e : String) :
    extract_text_dispatch env e = extract_text_dispatch env (pyLower e) ∧
    process_file env ".PDF" none =
      .ok ⟨some ("Unsupported file format: " ++ ".PDF"), none⟩ := by
  constructor
  · unfold extract_text_dispatch
    rw [pyLower_idem]
  · rfl

/-- Claim C4 counterexample: a three-page PDF with page texts "a", "b",
"c" yields "a\n\nb\n\nc\n\n" — each page is followed by a blank-line
separator, including the last — which is not the three page texts joined
by blank lines ("a\n\nb\n\nc"). -/
theorem C4_counterexample :
    process_file pdfThreeEnv ".pdf" none =
      .ok ⟨some "a\n\nb\n\nc\n\n", none⟩ ∧
    "a\n\nb\n\nc\n\n" ≠ "\n\n".intercalate ["a", "b", "c"] := by
  exact ⟨rfl, by decide⟩

/-- Claim C4 (amended): for a well-formed PDF the extracted text is the
concatenation, in page order, of each page text followed by a blank line —
pages are joined by blank lines and a trailing blank line follows the last
page. -/
theorem C4_pdf_concatenation (env : FileEnv) (pages : List String)
    (h : env.pdfParse = .ok pages) :
    process_file env ".pdf" none =
      .ok ⟨some (concatMap (fun page => page ++ "\n\n") pages), none⟩ := by
  rw [process_file_none,
    show dispatch env ".pdf" = extract_from_pdf env.pdfParse from rfl, h,
    extract_from_pdf_ok]

/-- Witness for claim C4 (amended) at the concrete three-page PDF. -/
theorem C4_pdf_concatenation_witness :
    pdfThreeEnv.pdfParse = Except.ok ["a", "b", "c"] ∧
    process_file pdfThreeEnv ".pdf" none =
      .ok ⟨some (concatMap (fun page => page ++ "\n\n") ["a", "b", "c"]),
        none⟩ ∧
    concatMap (fun page => page ++ "\n\n") ["a", "b", "c"] =
      "a\n\nb\n\nc\n\n" :=
  ⟨rfl, C4_pdf_concatenation pdfThreeEnv ["a", "b", "c"] rfl, by decide⟩

/-- Claim C5: for every image extension and every file whatsoever,
`process_file` returns the successful text result
"Image processing is not supported in this version."; the environment is
universally quantified, so the result does not depend on file content. -/
theorem C5_image_extensions_fixed_text (env : FileEnv) (ext : String)
    (h : ext ∈ imageExts) :
    process_file env ext none =
      .ok ⟨some "Image processing is not supported in this version.",
        none⟩ := by
  simp only [imageExts, List.mem_cons, List.not_mem_nil, or_false] at h
  rcases h with rfl | rfl | rfl | rfl | rfl | rfl <;> rfl

/-- Witness for claim C5: the ".png" extension on a garbage file. -/
theorem C5_image_extensions_fixed_text_witness :
    ".png" ∈ imageExts ∧
    process_file baseEnv ".png" none =
      .ok ⟨some "Image processing is not supported in this version.",
        none⟩ :=
  ⟨by decide, C5_image_extensions_fixed_text baseEnv ".png" (by decide)⟩

/-- Claim C6: for every extension outside the known set (the ten
supported-format suffixes and the six image suffixes), `process_file`
returns the successful text result "Unsupported file format: <ext>" with
the input extension verbatim. -/
theorem C6_unknown_extension_fallback (env : FileEnv) (ext : String)
    (h : ext ∉ supportedExts ++ imageExts) :
    process_file env ext none =
      .ok ⟨some ("Unsupported file format: " ++ ext), none⟩ := by
  simp only [supportedExts, imageExts, List.cons_append, List.nil_append,
    List.mem_cons, List.not_mem_nil, or_false, not_or] at h
  obtain ⟨h1, h2, h3, h4, h5, h6, h7, h8, h9, h10, h11, h12, h13, h14, h15,
    h16⟩ := h
  rw [process_file_none]
  unfold dispatch
  rw [if_neg h1, if_neg h2, if_neg h3, if_neg h4, if_neg (by simp [h5]),
    if_neg (by simp [h6, h7]), if_neg h8, if_neg (by simp [h9, h10]),
    if_neg (by simp [h11, h12, h13, h14, h15, h16])]

/-- Witness for claim C6 at the unknown extension ".xyz". -/
theorem C6_unknown_extension_fallback_witness :
    ".xyz" ∉ supportedExts ++ imageExts ∧
    process_file baseEnv ".xyz" none =
      .ok ⟨some ("Unsupported file format: " ++ ".xyz"), none⟩ :=
  ⟨by decide, C6_unknown_extension_fallback baseEnv ".xyz" (by decide)⟩

/-- Claim C7: for a well-formed workbook under ".xls" or ".xlsx", the
output is the concatenation, over the sheets in stored order, of the label
"Sheet: <name>" and a newline, the sheet's rendered table, and a blank
line. -/
theorem C7_excel_sheets (env : FileEnv) (sheets : List (String × String))
    (ext : String) (hp : env.excelParse = .ok sheets)
    (he : ext ∈ [".xls", ".xlsx"]) :
    process_file env ext none =
      .ok ⟨some (concatMap
        (fun s => ("Sheet: " ++ s.1 ++ "\n") ++ (s.2 ++ "\n\n")) sheets),
        none⟩ := by
  simp only [List.mem_cons, List.not_mem_nil, or_false] at he
  rcases he with rfl | rfl
  · rw [process_file_none,
      show dispatch env ".xls" = extract_from_excel env.excelParse from rfl,
      hp, extract_from_excel_ok]
  · rw [process_file_none,
      show dispatch env ".xlsx" = extract_from_excel env.excelParse from rfl,
      hp, extract_from_excel_ok]

/-- Witness for claim C7 at the concrete workbook with sheets "Sheet1" and
"Data": both labels appear, each followed by that sheet's content, in
workbook order. -/
theorem C7_excel_sheets_witness :
    sheetsEnv.excelParse = Except.ok [("Sheet1", "t1"), ("Data", "t2")] ∧
    ".xlsx" ∈ [".xls", ".xlsx"] ∧
    process_file sheetsEnv ".xlsx" none =
      .ok ⟨some (concatMap
        (fun s => ("Sheet: " ++ s.1 ++ "\n") ++ (s.2 ++ "\n\n"))
        [("Sheet1", "t1"), ("Data", "t2")]), none⟩ ∧
    concatMap (fun s => ("Sheet: " ++ s.1 ++ "\n") ++ (s.2 ++ "\n\n"))
      [("Sheet1", "t1"), ("Data", "t2")] =
      "Sheet: Sheet1\nt1\n\nSheet: Data\nt2\n\n" :=
  ⟨rfl, by decide,
    C7_excel_sheets sheetsEnv [("Sheet1", "t1"), ("Data", "t2")] ".xlsx" rfl
      (by decide), by decide⟩

/-- Claim C8: the ".txt" route never fails on any byte sequence — for
every file (valid UTF-8 or not) `process_file` returns a successful text
result holding the lenient decoding of the bytes; and the decoder
substitutes the replacement character U+FFFD at invalid positions, as at
the concrete invalid byte 0xFF. -/
theorem C8_txt_never_fails (env : FileEnv) :
    process_file env ".txt" none =
      .ok ⟨some (String.mk (utf8DecodeReplace env.bytes)), none⟩ ∧
    utf8DecodeReplace [0x41, 0xFF, 0x42] = ['A', replChar, 'B'] :=
  ⟨rfl, by decide⟩

/-- Claim C9: every value `process_file` returns is a dict with exactly
one of the "text" and "error" keys populated — never both, never
neither — and `process_file` always returns (it never raises). -/
theorem C9_result_exactly_one_variant (env : FileEnv) (ext : String)
    (fault : Option String) :
    ∃ d, process_file env ext fault = .ok d ∧
      ((d.text.isSome ∧ d.error = none) ∨
       (d.text = none ∧ d.error.isSome)) := by
  cases fault with
  | none => exact ⟨_, rfl, Or.inl ⟨rfl, rfl⟩⟩
  | some e => exact ⟨_, rfl, Or.inr ⟨rfl, rfl⟩⟩

/-- Claim C10: the empty extension is not treated specially — it reaches
the unsupported-format fallback, and `process_file` (and the boundary
dispatch, which lower-cases first) returns the successful text
"Unsupported file format: " with nothing after the colon and space. -/
theorem C10_empty_extension_unsupported (env : FileEnv) :
    process_file env "" none =
      .ok ⟨some "Unsupported file format: ", none⟩ ∧
    extract_text_dispatch env "" =
      .ok ⟨some "Unsupported file format: ", none⟩ :=
  ⟨rfl, rfl⟩

end DocExtractor
